import Mathlib

/-!
Verification of the NOAA ETL script (`src/etl_noaa.py`) against its
natural-language specification.

The source is shallowly embedded: the HTTP layer is modelled by an
explicit `server` oracle (what the API would answer at each attempt /
each requested offset), sleeping is recorded as a trace of durations,
and the potentially non-terminating pagination `while` loop is given
explicit fuel (`none` = fuel exhausted, i.e. the loop would still be
running).  Raising of a Python exception is modelled by an explicit
`crash` outcome.
-/

/-- One observation record as parsed from the API JSON `results` list
(`date`, `datatype`, `station`, `value`); the numeric `value` is
modelled as an integer in tenths, its content is never inspected by the
fetch layer. -/
structure Obs where
  date : String
  datatype : String
  station : String
  value : Int
deriving DecidableEq

/-- The parts of an HTTP response that `src/etl_noaa.py` reads:
`response.status_code`, `data.get("results", [])` and
`data.get("metadata", {}).get("resultset", {})` with its `offset`,
`limit` and `count` fields (the `.get(_, 0)` defaults are absorbed into
the fields being always present). -/
structure Response where
  status_code : Nat
  results : List Obs
  res_offset : Nat
  res_limit : Nat
  res_count : Nat
deriving DecidableEq

/-- Outcome of one `requests.get` call: an HTTP response, or a
network-level `requests.exceptions.RequestException`. -/
inductive Attempt where
  | resp (r : Response)
  | netErr
deriving DecidableEq

/-- Loop body of `make_request` (`src/etl_noaa.py` lines 53-72).
`server a` is what the HTTP GET returns on attempt number `a`
(0-based, as in `for attempt in range(retries)`).  Returns the value
`make_request` returns, the number of attempts performed, and the
chronological list of sleep durations (seconds) executed.
Branches, in source order: status 200 returns the response; 503 sleeps
`backoff ** attempt` and falls to the next attempt; 429 prints and
returns `None`; any other status prints and falls to the next attempt
with no sleep; a request exception prints, sleeps `backoff ** attempt`
and falls to the next attempt; an exhausted loop prints
"Max retries exceeded." and returns `None`. -/
def make_requestAux (server : Nat → Attempt) (backoff : Nat) :
    Nat → Nat → Option Response × Nat × List Nat
  | 0, _ => (none, 0, [])
  | fuel + 1, attempt =>
    match server attempt with
    | .resp r =>
      if r.status_code = 200 then
        (some r, 1, [])
      else if r.status_code = 503 then
        let rest := make_requestAux server backoff fuel (attempt + 1)
        (rest.1, rest.2.1 + 1, backoff ^ attempt :: rest.2.2)
      else if r.status_code = 429 then
        (none, 1, [])
      else
        let rest := make_requestAux server backoff fuel (attempt + 1)
        (rest.1, rest.2.1 + 1, rest.2.2)
    | .netErr =>
      let rest := make_requestAux server backoff fuel (attempt + 1)
      (rest.1, rest.2.1 + 1, backoff ^ attempt :: rest.2.2)

/-- `make_request(headers, params, retries=5, backoff=2)`: run the
attempt loop `for attempt in range(retries)` starting at attempt 0.
The fixed `headers`/`params` are absorbed into the `server` oracle. -/
def make_request (server : Nat → Attempt) (retries : Nat) (backoff : Nat) :
    Option Response × Nat × List Nat :=
  make_requestAux server backoff retries 0

/-- A server that answers 503 for the first two attempts and then
always answers `r` (the scenario of spec §8, bullet 3). -/
def server_503_twice (r : Response) : Nat → Attempt :=
  fun a => if a < 2 then .resp ⟨503, [], 0, 0, 0⟩ else .resp r

/-- A server that always answers 503. -/
def server_always_503 : Nat → Attempt :=
  fun _ => .resp ⟨503, [], 0, 0, 0⟩

/-- Pages of `make_requestAux` for an always-503 server: all `fuel`
attempts are used, each followed by a sleep of `backoff ^ attempt`. -/
theorem make_requestAux_503 (backoff : Nat) :
    ∀ fuel a, make_requestAux server_always_503 backoff fuel a =
      (none, fuel, (List.range' a fuel).map (backoff ^ ·)) := by
  intro fuel
  induction fuel with
  | zero => intro a; rfl
  | succ n ih =>
    intro a
    simp [make_requestAux, server_always_503, ih (a + 1), List.range']

/-- Claim C3: with `retries ≥ 3` and `backoff > 1`, a server answering
503 on the first two attempts and 200 on the third makes `make_request`
perform exactly 3 attempts, sleeping `backoff ^ 0` then `backoff ^ 1`
seconds before the retries — strictly increasing exponential delays —
and return the successful response; and in general a 503 is retried
with exponential backoff up to `retries` attempts (an always-503 server
consumes all `retries` attempts with sleeps `backoff ^ 0, …,
backoff ^ (retries-1)` and yields no result). -/
theorem make_request_503_retry_spec (r : Response) (retries backoff : Nat)
    (h200 : r.status_code = 200) (hret : 3 ≤ retries) (hb : 1 < backoff) :
    make_request (server_503_twice r) retries backoff =
        (some r, 3, [backoff ^ 0, backoff ^ 1]) ∧
      backoff ^ 0 < backoff ^ 1 ∧
      make_request server_always_503 retries backoff =
        (none, retries, (List.range retries).map (backoff ^ ·)) := by
  refine ⟨?_, ?_, ?_⟩
  · obtain ⟨k, rfl⟩ : ∃ k, retries = k + 3 :=
      ⟨retries - 3, by omega⟩
    simp [make_request, make_requestAux, server_503_twice, h200]
  · simpa using hb
  · rw [make_request, make_requestAux_503, List.range_eq_range']

/-- Witness for C3 at `retries = 5`, `backoff = 2` (the source's
default arguments) and a concrete 200 response. -/
theorem make_request_503_retry_spec_witness :
    make_request (server_503_twice ⟨200, [], 1, 1000, 0⟩) 5 2 =
      (some ⟨200, [], 1, 1000, 0⟩, 3, [1, 2]) := by
  have h := make_request_503_retry_spec ⟨200, [], 1, 1000, 0⟩ 5 2 rfl
    (by decide) (by decide)
  simpa using h.1

/-- Claim C4: if the first attempt's response has status 429,
`make_request` returns `None` after exactly one attempt, with no retry
and no backoff sleep. -/
theorem make_request_429_aborts (server : Nat → Attempt) (r : Response)
    (retries backoff : Nat) (h0 : server 0 = .resp r)
    (h429 : r.status_code = 429) (hret : 1 ≤ retries) :
    make_request server retries backoff = (none, 1, []) := by
  obtain ⟨k, rfl⟩ : ∃ k, retries = k + 1 := ⟨retries - 1, by omega⟩
  simp [make_request, make_requestAux, h0, h429]

/-- Witness for C4: a server whose first answer is a 429 response. -/
theorem make_request_429_aborts_witness :
    make_request (fun _ => .resp ⟨429, [], 0, 0, 0⟩) 5 2 = (none, 1, []) :=
  make_request_429_aborts (fun _ => .resp ⟨429, [], 0, 0, 0⟩)
    ⟨429, [], 0, 0, 0⟩ 5 2 rfl rfl (by decide)

/-- Claim C9 (first half, as an auxiliary lemma over the loop body):
whenever the attempt loop yields a response, that response has status
exactly 200. -/
theorem make_requestAux_only_200 (server : Nat → Attempt) (backoff : Nat) :
    ∀ fuel a,
      ((make_requestAux server backoff fuel a).1.all
        (fun r => r.status_code == 200)) = true := by
  intro fuel
  induction fuel with
  | zero => intro a; rfl
  | succ n ih =>
    intro a
    rw [make_requestAux]
    match h : server a with
    | .resp r =>
      by_cases h200 : r.status_code = 200
      · simp [h200]
      · by_cases h503 : r.status_code = 503
        · simpa [h200, h503] using ih (a + 1)
        · by_cases h429 : r.status_code = 429
          · simp [h200, h503, h429]
          · simpa [h200, h503, h429] using ih (a + 1)
    | .netErr => simpa using ih (a + 1)

/-- Result of `get_temp_vals_by_dates`'s pagination loop:
`ok` — normal exit of the `while` loop, returning all accumulated
records; `earlyStop` — the early `return df` taken when a response
object with a non-200 status comes back; `crash` — the Python
`AttributeError` raised by `response.status_code` when `make_request`
returned `None`. -/
inductive FetchResult where
  | ok (records : List Obs)
  | earlyStop (records : List Obs)
  | crash
deriving DecidableEq

/-- Whether a `FetchResult` is the early-return outcome. -/
def FetchResult.isEarlyStop : FetchResult → Bool
  | .earlyStop _ => true
  | _ => false

/-- Loop body of `get_temp_vals_by_dates` (`src/etl_noaa.py` lines
89-114).  `server off` is the attempt oracle the API presents to the
`make_request` call whose query parameters carry `offset = off` (the
fixed `datasetid`/dates/`limit=1000` parameters are absorbed into the
oracle).  `make_request` is called with its default `retries=5`,
`backoff=2`.  The state is the `params["offset"]` cursor (initially 1)
and the accumulated `results`; the returned trace lists the offsets of
the requests issued, in order.  The `while has_more` loop is given
explicit `fuel`; `none` models non-termination within the fuel.  After
a 200 page the loop exits when the server-reported
`offset + limit >= total`, otherwise `params["offset"] += limit`
(server-reported limit) and the loop repeats (the 0.2 s courtesy sleep
is not modelled). -/
def get_temp_valsAux (server : Nat → Nat → Attempt) :
    Nat → Nat → List Obs → List Nat → Option (FetchResult × List Nat)
  | 0, _, _, _ => none
  | fuel + 1, offsetParam, results, trace =>
    match (make_request (server offsetParam) 5 2).1 with
    | none => some (.crash, trace ++ [offsetParam])
    | some r =>
      if r.status_code ≠ 200 then
        some (.earlyStop results, trace ++ [offsetParam])
      else
        if r.res_offset + r.res_limit ≥ r.res_count then
          some (.ok (results ++ r.results), trace ++ [offsetParam])
        else
          get_temp_valsAux server fuel (offsetParam + r.res_limit)
            (results ++ r.results) (trace ++ [offsetParam])

/-- `get_temp_vals_by_dates(start, end)`: the pagination loop starting
from `offset = 1` with nothing accumulated. -/
def get_temp_vals_by_dates (server : Nat → Nat → Attempt) (fuel : Nat) :
    Option (FetchResult × List Nat) :=
  get_temp_valsAux server fuel 1 [] []

/-- Claim C9: `make_request` only ever returns `None` or a response
whose status code is exactly 200; consequently the pagination loop's
branch for a returned non-200 response (`earlyStop`) is unreachable. -/
theorem make_request_only_200 (server : Nat → Attempt)
    (retries backoff : Nat) (pageServer : Nat → Nat → Attempt) (fuel : Nat) :
    ((make_request server retries backoff).1.all
        (fun r => r.status_code == 200)) = true ∧
      ((get_temp_vals_by_dates pageServer fuel).all
        (fun pr => !pr.1.isEarlyStop)) = true := by
  constructor
  · exact make_requestAux_only_200 server backoff retries 0
  · rw [get_temp_vals_by_dates]
    generalize 1 = off
    generalize ([] : List Obs) = acc
    generalize ([] : List Nat) = tr
    induction fuel generalizing off acc tr with
    | zero => rfl
    | succ n ih =>
      rw [get_temp_valsAux]
      match hmr : (make_request (pageServer off) 5 2).1 with
      | none => rfl
      | some r =>
        have h200 : r.status_code = 200 := by
          have := make_requestAux_only_200 (pageServer off) 2 5 0
          rw [make_request] at hmr
          rw [hmr] at this
          simpa using this
        simp only [h200]
        by_cases hdone : r.res_offset + r.res_limit ≥ r.res_count
        · simp [hdone, FetchResult.isEarlyStop]
        · simpa [hdone] using ih (off + r.res_limit) (acc ++ r.results) _

/-- The date-range parameters of a month whose first page request is
answered with HTTP 429: `make_request` then returns `None`. -/
def server_429_page : Nat → Nat → Attempt :=
  fun _ _ => .resp ⟨429, [], 0, 0, 0⟩

/-- Claim C1 (evaluation at the failing input): when `make_request`
yields no result (here: a 429 on the first page request),
`get_temp_vals_by_dates` does not return the records accumulated so
far — it evaluates `response.status_code` on `None` and raises
`AttributeError` (the `crash` outcome), after issuing the single
request at offset 1. -/
theorem get_temp_vals_crashes_on_none :
    get_temp_vals_by_dates server_429_page 5 = some (.crash, [1]) ∧
      FetchResult.crash ≠ FetchResult.ok [] := by
  constructor
  · rfl
  · decide

/-- A well-behaved API for one date range holding `total` records: every
page request at offset `off` is answered immediately with a 200
response whose metadata echoes the requested offset, the fixed page
`limit`, and the total `count`, and whose payload is `pages off`. -/
def honestServer (pages : Nat → List Obs) (limit total : Nat) :
    Nat → Nat → Attempt :=
  fun off _ => .resp ⟨200, pages off, off, limit, total⟩

/-- Claim C2 (evaluation at the failing input, plus the true part of
the claim): for a server reporting `total = 1001` with `limit = 1000`,
the loop stops after the single request at offset 1 (since the check
`1 + 1000 >= 1001` fires with record 1001 never requested), even though
`ceil(total / limit) = 2`; for `total = 2000` the loop does advance the
offset by the limit, issuing requests at offsets 1 and 1001. -/
theorem get_temp_vals_request_count_1001 :
    get_temp_vals_by_dates (honestServer (fun _ => []) 1000 1001) 5 =
        some (.ok [], [1]) ∧
      (1001 + 1000 - 1) / 1000 = 2 ∧
      get_temp_vals_by_dates (honestServer (fun _ => []) 1000 2000) 5 =
        some (.ok [], [1, 1001]) := by
  refine ⟨rfl, by decide, rfl⟩

/-- Python `calendar.isleap(year)`:
`year % 4 == 0 and (year % 100 != 0 or year % 400 == 0)` (used inside
`calendar.monthrange`). -/
def isleap (year : Int) : Bool :=
  year % 4 == 0 && (year % 100 != 0 || year % 400 == 0)

/-- Python `calendar.mdays`: day counts indexed by month number, with a
leading 0 placeholder. -/
def mdays : List Nat :=
  [0, 31, 28, 31, 30, 31, 30, 31, 31, 30, 31, 30, 31]

/-- `calendar.monthrange(year, month)[1]`: the number of days in the
month — `mdays[month] + (month == 2 and isleap(year))`. -/
def monthrange_days (year : Int) (month : Nat) : Nat :=
  mdays.getD month 0 + (if month == 2 && isleap year then 1 else 0)

/-- Python `f"{n:02d}"` for the (non-negative, ≤ 31) values used here:
zero-pad to two digits. -/
def pad2 (n : Nat) : String :=
  if n < 10 then "0" ++ toString n else toString n

/-- `generate_date_ranges(year)` (`src/etl_noaa.py` lines 120-125):
for each `month in range(1, 13)`, append the pair
`(f"{year}-{month:02d}-01", f"{year}-{month:02d}-{days:02d}")` with
`days = monthrange(year, month)[1]`. -/
def generate_date_ranges (year : Int) : List (String × String) :=
  (List.range 12).map fun i =>
    let month := i + 1
    let days := monthrange_days year month
    (toString year ++ "-" ++ pad2 month ++ "-01",
     toString year ++ "-" ++ pad2 month ++ "-" ++ pad2 days)

/-- The Gregorian month length, stated from the spec's words rather
than from `calendar.mdays`: February has 29 days in a leap year
(divisible by 4 and not by 100, or divisible by 400) and 28 otherwise;
April, June, September and November have 30 days; the other months have
31. -/
def gregorianMonthLength (year : Int) (month : Nat) : Nat :=
  if month = 2 then
    if (4 ∣ year ∧ ¬ (100 ∣ year)) ∨ 400 ∣ year then 29 else 28
  else if month = 4 ∨ month = 6 ∨ month = 9 ∨ month = 11 then 30
  else 31

/-- The code's `isleap` agrees with the spec's leap-year predicate. -/
theorem isleap_eq_spec (year : Int) :
    isleap year = true ↔ ((4 ∣ year ∧ ¬ (100 ∣ year)) ∨ 400 ∣ year) := by
  rw [isleap]
  rw [Int.dvd_iff_emod_eq_zero, Int.dvd_iff_emod_eq_zero,
    Int.dvd_iff_emod_eq_zero]
  simp only [Bool.and_eq_true, Bool.or_eq_true, beq_iff_eq, bne_iff_ne,
    ne_eq]
  omega

/-- `monthrange` agrees with the spec's Gregorian month lengths on the
months 1..12 that the code uses. -/
theorem monthrange_days_eq_spec (year : Int) (month : Nat)
    (h1 : 1 ≤ month) (h2 : month ≤ 12) :
    monthrange_days year month = gregorianMonthLength year month := by
  interval_cases month <;>
    simp only [monthrange_days, gregorianMonthLength, mdays] <;>
    first
      | rfl
      | (by_cases hl : (4 ∣ year ∧ ¬ (100 ∣ year)) ∨ 400 ∣ year
         · rw [if_pos hl]
           have : isleap year = true := (isleap_eq_spec year).2 hl
           simp [this]
         · rw [if_neg hl]
           have : ¬ isleap year = true := fun hc =>
             hl ((isleap_eq_spec year).1 hc)
           simp [Bool.not_eq_true] at this
           simp [this])

/-- Claim C6: for every year, `generate_date_ranges` returns exactly 12
`(start, end)` date-string pairs, one per calendar month, each starting
on day 01 and ending on the correct Gregorian last day of that month
(leap years included); in particular February 2024 ends on 29 and
February 2023 on 28.  The function is a total Lean function: no I/O and
no failure mode. -/
theorem generate_date_ranges_correct :
    (∀ (year : Int), (generate_date_ranges year).length = 12) ∧
      (∀ (year : Int) (i : Nat), i < 12 →
        (generate_date_ranges year)[i]? =
          some (toString year ++ "-" ++ pad2 (i + 1) ++ "-01",
            toString year ++ "-" ++ pad2 (i + 1) ++ "-" ++
              pad2 (gregorianMonthLength year (i + 1)))) ∧
      (generate_date_ranges 2024)[1]? = some ("2024-02-01", "2024-02-29") ∧
      (generate_date_ranges 2023)[1]? = some ("2023-02-01", "2023-02-28") := by
  refine ⟨?_, ?_, ?_, ?_⟩
  · intro year
    simp [generate_date_ranges]
  · intro year i hi
    rw [generate_date_ranges]
    rw [List.getElem?_map]
    rw [List.getElem?_range hi]
    simp only [Option.map_some']
    rw [monthrange_days_eq_spec year (i + 1) (by omega) (by omega)]
  · decide
  · decide

/-- Witness for C6: the universally quantified part evaluated at
year 2024, month index 1 (February). -/
theorem generate_date_ranges_correct_witness :
    (generate_date_ranges 2024)[1]? =
      some (toString (2024 : Int) ++ "-" ++ pad2 2 ++ "-01",
        toString (2024 : Int) ++ "-" ++ pad2 2 ++ "-" ++
          pad2 (gregorianMonthLength 2024 2)) :=
  generate_date_ranges_correct.2.1 2024 1 (by decide)

/-- `output_csv_name` (`src/etl_noaa.py` line 17): the relative file
name `extract` passes to `df_all.to_csv(...)`. -/
def output_csv_name : String :=
  "new_york_weather_1974_2024.csv"

/-- POSIX `os.path.join(a, b)`: if `b` is absolute it replaces `a`;
if `a` is empty or ends with the separator, concatenate; otherwise
insert a `/` between them. -/
def os_path_join (a b : String) : String :=
  if b.data.head? == some '/' then b
  else if a = "" then b
  else if a.data.getLast? == some '/' then a ++ b
  else a ++ "/" ++ b

/-- `FILE_PATH` (`src/etl_noaa.py` line 20):
`os.path.join(BASE_DIR, "data", "new_york_weather_1974_2024.csv")`,
where `BASE_DIR = os.path.dirname(__file__)` is the script's directory,
known only at run time and therefore a parameter here.  This is the
path the module-level driver's `os.path.isfile(FILE_PATH)` checkpoint
check probes. -/
def FILE_PATH (base_dir : String) : String :=
  os_path_join (os_path_join base_dir "data") output_csv_name

/-- The absolute location of the file `extract` writes:
`df_all.to_csv(output_csv_name, index=False)` resolves the relative
name against the process's working directory. -/
def extract_write_abspath (cwd : String) : String :=
  os_path_join cwd output_csv_name

/-- Claim C5 (evaluation at the failing input): running the script from
its own directory (`cwd = BASE_DIR = "/app/etl_noaa"`), the checkpoint
`extract` persists lands next to the script, while the startup check
probes the `data` subdirectory — the written path and the checked path
differ, so the persisted checkpoint is never found on the next
startup. -/
theorem checkpoint_path_mismatch :
    extract_write_abspath "/app/etl_noaa" ≠ FILE_PATH "/app/etl_noaa" ∧
      extract_write_abspath "/app/etl_noaa" =
        "/app/etl_noaa/new_york_weather_1974_2024.csv" ∧
      FILE_PATH "/app/etl_noaa" =
        "/app/etl_noaa/data/new_york_weather_1974_2024.csv" := by
  refine ⟨by decide, by decide, by decide⟩

/-- The year-tagged rows `fetch_year` produces (`df_month["year"] =
year`): an observation record plus the `year` column. -/
structure Row where
  date : String
  datatype : String
  station : String
  value : Int
  year : Int
deriving DecidableEq

/-- `range(start_year, end_year)` over Python ints. -/
def yearRange (start_year end_year : Int) : List Int :=
  (List.range (end_year - start_year).toNat).map
    (fun i : Nat => start_year + (i : Int))

/-- What one run of `extract` did: the years passed to `fetch_year` in
call order, the files written with their contents, and the returned
value (`none` models Python's implicit `return None` on the
all-empty path). -/
structure ExtractRun where
  fetched : List Int
  written : List (String × List Row)
  result : Option (List Row)
deriving DecidableEq

/-- `extract(start_year, end_year)` (`src/etl_noaa.py` lines 145-160)
with `fetch_year` as an oracle `fy` from a year to that year's
(already year-tagged) rows: loop over `range(start_year, end_year)`,
keep the non-empty per-year tables, and if any were kept concatenate
them (`pd.concat(all_years, ignore_index=True)`), write the result to
`output_csv_name` and return it; otherwise print "Failed to save data"
and fall off the end of the function. -/
def extract (fy : Int → List Row) (start_year end_year : Int) : ExtractRun :=
  let years := yearRange start_year end_year
  let all_years := (years.map fy).filter (fun l => !l.isEmpty)
  if all_years.isEmpty then
    { fetched := years, written := [], result := none }
  else
    { fetched := years,
      written := [(output_csv_name, all_years.flatten)],
      result := some all_years.flatten }

/-- Joining the non-empty tables equals joining all of them. -/
theorem flatten_filter_not_isEmpty (l : List (List Row)) :
    (l.filter (fun x => !x.isEmpty)).flatten = l.flatten := by
  induction l with
  | nil => rfl
  | cons a t ih =>
    by_cases ha : a.isEmpty
    · have : a = [] := List.isEmpty_iff.1 ha
      simp [this, ih]
    · simp [List.filter_cons, ha, ih]

/-- Claim C7: `extract` fetches exactly the years of the half-open span
`[start_year, end_year)`, in strictly increasing order; when some year
yields data it concatenates all per-year tables (empty years contribute
nothing), persists that combined table to `output_csv_name` and returns
it; when every year is empty it returns no table and writes nothing —
reporting failure without raising (the embedding is a total function,
so no exception path exists). -/
theorem extract_orchestration (fy : Int → List Row) (sy ey : Int) :
    (extract fy sy ey).fetched = yearRange sy ey ∧
      (∀ y : Int, y ∈ (extract fy sy ey).fetched ↔ sy ≤ y ∧ y < ey) ∧
      (extract fy sy ey).fetched.Pairwise (· < ·) ∧
      ((∃ y ∈ yearRange sy ey, fy y ≠ []) →
        (extract fy sy ey).result = some ((yearRange sy ey).map fy).flatten ∧
          (extract fy sy ey).written =
            [(output_csv_name, ((yearRange sy ey).map fy).flatten)]) ∧
      ((∀ y ∈ yearRange sy ey, fy y = []) →
        (extract fy sy ey).result = none ∧
          (extract fy sy ey).written = []) := by
  have hmem : ∀ y : Int, y ∈ yearRange sy ey ↔ sy ≤ y ∧ y < ey := by
    intro y
    rw [yearRange]
    simp only [List.mem_map, List.mem_range]
    constructor
    · rintro ⟨i, hi, rfl⟩
      omega
    · rintro ⟨h1, h2⟩
      exact ⟨(y - sy).toNat, by omega, by omega⟩
  have hfetched : (extract fy sy ey).fetched = yearRange sy ey := by
    rw [extract]
    split <;> rfl
  refine ⟨hfetched, ?_, ?_, ?_, ?_⟩
  · intro y
    rw [hfetched]
    exact hmem y
  · rw [hfetched, yearRange]
    exact List.Pairwise.map _ (fun a b hab => by omega)
      (List.pairwise_lt_range _)
  · intro hex
    have h : ¬ ((yearRange sy ey).map fy).filter (fun l => !l.isEmpty) = [] := by
      intro hnil
      obtain ⟨y, hy, hne'⟩ := hex
      have := List.filter_eq_nil_iff.1 hnil (fy y) (List.mem_map_of_mem fy hy)
      exact hne' (List.isEmpty_iff.1 (by simpa using this))
    rw [extract]
    rw [if_neg (by simpa [List.isEmpty_iff] using h)]
    rw [flatten_filter_not_isEmpty]
    exact ⟨rfl, rfl⟩
  · intro hall
    have h : ((yearRange sy ey).map fy).filter (fun l => !l.isEmpty) = [] := by
      apply List.filter_eq_nil_iff.2
      intro l hl
      obtain ⟨y, hy, rfl⟩ := List.mem_map.1 hl
      simp [hall y hy]
    rw [extract]
    rw [if_pos (by simpa [List.isEmpty_iff] using h)]
    exact ⟨rfl, rfl⟩

/-- Witness for C7: a two-year span in which every year yields one
row. -/
theorem extract_orchestration_witness :
    (extract (fun _ => [⟨"2020-01-01", "TMAX", "GHCND:US1", 50, 2020⟩])
        2000 2002).result =
      some [⟨"2020-01-01", "TMAX", "GHCND:US1", 50, 2020⟩,
        ⟨"2020-01-01", "TMAX", "GHCND:US1", 50, 2020⟩] := by
  have h := (extract_orchestration
    (fun _ => [⟨"2020-01-01", "TMAX", "GHCND:US1", 50, 2020⟩])
    2000 2002).2.2.2.1 ⟨2000, by decide, by decide⟩
  simpa [yearRange] using h.1

/-- The module-level driver (`src/etl_noaa.py` lines 234-244): if the
checkpoint CSV at `FILE_PATH` exists its contents are loaded, otherwise
`df = extract(1974, 2024)`; either way `df` is then passed to
`transform`.  `checkpoint_df` is the loaded checkpoint when the file
exists, `none` when it does not. -/
def driver_transform_input (checkpoint_df : Option (List Row))
    (fy : Int → List Row) : Option (List Row) :=
  match checkpoint_df with
  | some df => some df
  | none => (extract fy 1974 2024).result

/-- Claim C10: when no checkpoint exists and every year of the span
1974..2023 yields an empty result, `extract` falls off the end of the
function (Python's implicit `return None`), so the value the driver
passes to `transform` is `None`, not an empty table. -/
theorem driver_transform_input_none_on_total_failure (fy : Int → List Row)
    (h : ∀ y ∈ yearRange 1974 2024, fy y = []) :
    driver_transform_input none fy = none := by
  have hfil : ((yearRange 1974 2024).map fy).filter (fun l => !l.isEmpty)
      = [] := by
    apply List.filter_eq_nil_iff.2
    intro l hl
    obtain ⟨y, hy, rfl⟩ := List.mem_map.1 hl
    simp [h y hy]
  show (extract fy 1974 2024).result = none
  rw [extract, if_pos (by simpa [List.isEmpty_iff] using hfil)]

/-- Witness for C10: every year of the span empty. -/
theorem driver_transform_input_none_on_total_failure_witness :
    driver_transform_input none (fun _ => []) = none :=
  driver_transform_input_none_on_total_failure (fun _ => [])
    (fun _ _ => rfl)

/-- The pivot key of `transform`'s `pivot_table(index=["date",
"station", "year"], columns="datatype", ...)`: does row `r` fall in the
cell for date `d`, station `s`, year `y`, datatype column `dt`? -/
def rowKeyMatch (d s : String) (y : Int) (dt : String) (r : Row) : Bool :=
  r.date == d && r.station == s && r.year == y && r.datatype == dt

/-- The value of one cell of `transform`'s pivot
(`src/etl_noaa.py` lines 173-178): `pivot_table` groups the rows by
`(date, station, year)` and datatype column, preserving input order
within each group, and `aggfunc="first"` keeps the head of the group;
an empty group is a missing value (`none`). -/
def transform_pivot_cell (rows : List Row) (d s : String) (y : Int)
    (dt : String) : Option Int :=
  ((rows.filter (rowKeyMatch d s y dt)).head?).map Row.value

/-- The head of a filtered list is the first element satisfying the
predicate. -/
theorem head?_filter_eq_find? {α : Type} (p : α → Bool) (l : List α) :
    (l.filter p).head? = l.find? p := by
  induction l with
  | nil => rfl
  | cons a t ih =>
    by_cases h : p a
    · simp [List.filter_cons, List.find?_cons, h]
    · simp [List.filter_cons, List.find?_cons, h, ih]

/-- Claim C8: each cell of the pivoted wide table holds at most one
value per `(date, station, year, datatype)` key, namely the value of
the FIRST input row with that key (first-wins); consequently a later
row whose key duplicates the key of an earlier row is discarded — the
pivot result with the duplicate present equals the one with it
removed. -/
theorem transform_pivot_first_wins :
    (∀ (rows : List Row) (d s : String) (y : Int) (dt : String),
      transform_pivot_cell rows d s y dt =
        (rows.find? (rowKeyMatch d s y dt)).map Row.value) ∧
      (∀ (l1 l2 : List Row) (r r' : Row), r' ∈ l1 →
        r'.date = r.date → r'.station = r.station → r'.year = r.year →
        r'.datatype = r.datatype →
        ∀ (d s : String) (y : Int) (dt : String),
          transform_pivot_cell (l1 ++ r :: l2) d s y dt =
            transform_pivot_cell (l1 ++ l2) d s y dt) := by
  have hfind : ∀ (rows : List Row) (d s : String) (y : Int) (dt : String),
      transform_pivot_cell rows d s y dt =
        (rows.find? (rowKeyMatch d s y dt)).map Row.value := by
    intro rows d s y dt
    rw [transform_pivot_cell, head?_filter_eq_find?]
  refine ⟨hfind, ?_⟩
  intro l1 l2 r r' hr' hd hs hy hdt d s y dt
  rw [hfind, hfind, List.find?_append, List.find?_append]
  by_cases hp : rowKeyMatch d s y dt r = true
  · have hp' : rowKeyMatch d s y dt r' = true := by
      simp only [rowKeyMatch, hd, hs, hy, hdt]
      exact hp
    have hsome : l1.find? (rowKeyMatch d s y dt) ≠ none := by
      intro hn
      exact absurd hp' (by simpa using List.find?_eq_none.1 hn r' hr')
    obtain ⟨x, hx⟩ := Option.ne_none_iff_exists'.1 hsome
    rw [hx]
    rfl
  · rw [List.find?_cons_of_neg _ hp]

/-- Witness for C8: two TMAX rows for the same (date, station, year);
the pivot keeps the first value (50) and discards the second (99). -/
theorem transform_pivot_first_wins_witness :
    transform_pivot_cell
        [⟨"2020-01-01", "TMAX", "A", 50, 2020⟩,
          ⟨"2020-01-01", "TMAX", "A", 99, 2020⟩]
        "2020-01-01" "A" 2020 "TMAX" =
      transform_pivot_cell [⟨"2020-01-01", "TMAX", "A", 50, 2020⟩]
        "2020-01-01" "A" 2020 "TMAX" ∧
      transform_pivot_cell [⟨"2020-01-01", "TMAX", "A", 50, 2020⟩]
        "2020-01-01" "A" 2020 "TMAX" = some 50 := by
  constructor
  · exact transform_pivot_first_wins.2
      [⟨"2020-01-01", "TMAX", "A", 50, 2020⟩] []
      ⟨"2020-01-01", "TMAX", "A", 99, 2020⟩
      ⟨"2020-01-01", "TMAX", "A", 50, 2020⟩
      (by simp) rfl rfl rfl rfl "2020-01-01" "A" 2020 "TMAX"
  · decide
